import Mathlib

/-!
Verification of the token lifecycle engine (lib/model.js) of the
npg_sentry bearer-token authorization service.

Modelling conventions:
- JavaScript promises are modelled by `Except ModelError`; a rejected
  promise is `Except.error`.
- The mongodb tokens collection is a `List TokenDoc`; the users
  collection a `List UserDoc`.  `collection.find(q)` is `List.filter`,
  `cursor.count()` a list length, `cursor.next()` the head of the
  filtered list, `insertOne` an append, and `findOneAndUpdate` updates
  the first matching document (function `findOneAndUpdate` below).
- Instants of time (moment()) are `Nat` milliseconds, passed explicitly
  as a `now` argument; `moment().format()` is modelled as `toString`.
  The stored `expiryTime` is kept as `Option Nat` holding the instant
  (absent field = `none`); `now.isAfter(t)` is `t < now`.
- The 24 cryptographically random bytes consumed by the token generator
  are passed explicitly as a `List Nat` argument (each byte reduced
  mod 256).
- JS object literals for history entries are association lists from
  field names to string values, so that which fields an entry carries
  is directly observable.
- State-changing operations return the pair of the call result and the
  post-call store, so non-mutation is expressible.
-/

/-- Errors raised by the model: assertion failures from argument
validation (spec kind InvalidArgument), `DbError` (spec kind
NotFoundOrAmbiguous) and plain errors (spec kind NotOwner). -/
inductive ModelError where
  | assertionError (msg : String)
  | dbError (msg : String)
  | error (msg : String)
deriving DecidableEq

/-- Modelled from the spec: constants.js is not under src.  The spec
names the status enum values VALID and REVOKED. -/
def TOKEN_STATUS_VALID : String := "VALID"

/-- Modelled from the spec: constants.js is not under src.  The spec
names the status enum values VALID and REVOKED. -/
def TOKEN_STATUS_REVOKED : String := "REVOKED"

/-- Modelled from the spec: constants.js is not under src.  The spec
fixes the validity duration at 7 days. -/
def TOKEN_DURATION : Nat := 7

/-- Modelled from the spec: the duration unit is days; time is
modelled in milliseconds, so one day is 86400000 ticks. -/
def msPerDay : Nat := 86400000

/-- Modelled from the spec: constants.js is not under src.  Message for
the exactly-one-document check failure (spec kind NotFoundOrAmbiguous).
-/
def UNEXPECTED_NUM_DOCS : String := "unexpected number of documents"

/-- Modelled from the spec: constants.js is not under src.  Message for
the owner check failure (spec kind NotOwner). -/
def USER_NOT_TOKEN_OWNER : String := "user is not token owner"

/-- A history entry is a JS object literal, modelled as an association
list from field names to string values. -/
abbrev HistEntry := List (String × String)

/-- A document of the tokens collection, as built by `_buildToken`. -/
structure TokenDoc where
  token : String
  status : String
  hist : List HistEntry
  user : String
  expiryTime : Option Nat
deriving DecidableEq

/-- A document of the users collection: the `groups` field may be
absent (`none`). -/
structure UserDoc where
  user : String
  groups : Option (List String)
deriving DecidableEq

/-- Model of String.prototype.trim: drop whitespace from both ends of
the character list. -/
def jsTrim (s : String) : String :=
  String.mk (((s.data.dropWhile Char.isWhitespace).reverse.dropWhile
    Char.isWhitespace).reverse)

/-- Embedding of `_validate` for a string-typed value: JS
`assert(value)` fails exactly on the empty string (the only falsy
string), and the typeof check always passes for a typed string. -/
def _validate (scope name value : String) : Except ModelError Unit :=
  if value = "" then
    Except.error (ModelError.assertionError
      (scope ++ ": " ++ name ++ " is not defined"))
  else Except.ok ()

/-- Embedding of `_validateNoEmptyString`: `_validate` followed by the
check that the trimmed value is not the empty string. -/
def _validateNoEmptyString (scope name value : String) :
    Except ModelError Unit :=
  match _validate scope name value with
  | Except.error e => Except.error e
  | Except.ok _ =>
    if jsTrim value = "" then
      Except.error (ModelError.assertionError
        (scope ++ ": " ++ name ++ " cannot be empty string"))
    else Except.ok ()

/-- One sextet of the base64 alphabet. -/
def base64Char (n : Nat) : Char :=
  if n < 26 then Char.ofNat (65 + n)
  else if n < 52 then Char.ofNat (97 + (n - 26))
  else if n < 62 then Char.ofNat (48 + (n - 52))
  else if n = 62 then '+'
  else '/'

/-- Base64 encoding of a byte list (`buf.toString(base64)`), with
standard padding on a trailing group of one or two bytes. -/
def base64Encode : List Nat → List Char
  | [] => []
  | [b0] =>
    let n := (b0 % 256) * 65536
    [base64Char (n / 262144), base64Char (n / 4096 % 64), '=', '=']
  | [b0, b1] =>
    let n := (b0 % 256) * 65536 + (b1 % 256) * 256
    [base64Char (n / 262144), base64Char (n / 4096 % 64),
      base64Char (n / 64 % 64), '=']
  | b0 :: b1 :: b2 :: rest =>
    let n := (b0 % 256) * 65536 + (b1 % 256) * 256 + (b2 % 256)
    base64Char (n / 262144) :: base64Char (n / 4096 % 64) ::
      base64Char (n / 64 % 64) :: base64Char (n % 64) ::
      base64Encode rest

/-- The two regexp replacements of `generateTokenPromise`: slash to
underscore and plus to dash. -/
def urlSafeReplaceChar (c : Char) : Char :=
  if c = '/' then '_' else if c = '+' then '-' else c

/-- Embedding of `generateTokenPromise`: base64-encode the 24 random
bytes (passed explicitly) and make the result URL safe. -/
def generateTokenPromise (bytes : List Nat) : String :=
  String.mk ((base64Encode bytes).map urlSafeReplaceChar)

/-- The URL- and JSON-safe alphabet of the spec: letters, digits,
dash and underscore. -/
def isUrlSafeChar (c : Char) : Bool :=
  c.isAlpha || c.isDigit || c = '-' || c = '_'

/-- The history entry object literal pushed by `_buildToken` and by
the revoke update: fields `time` and `reason` only. -/
def mkHistEntry (now : Nat) (reason : String) : HistEntry :=
  [("time", toString now), ("reason", reason)]

/-- Embedding of `_buildToken`. -/
def _buildToken (token user justification : String) (now : Nat) :
    TokenDoc :=
  { token := token
    status := TOKEN_STATUS_VALID
    hist := [mkHistEntry now justification]
    user := user
    expiryTime := some (now + TOKEN_DURATION * msPerDay) }

/-- Embedding of mongodb `findOneAndUpdate` with returnOriginal false:
update the first document matching the filter and return the updated
document together with the new collection state. -/
def findOneAndUpdate (p : TokenDoc → Bool) (f : TokenDoc → TokenDoc) :
    List TokenDoc → Option TokenDoc × List TokenDoc
  | [] => (none, [])
  | d :: rest =>
    if p d then (some (f d), f d :: rest)
    else
      let r := findOneAndUpdate p f rest
      (r.1, d :: r.2)

/-- Embedding of `createToken`.  Validation errors reject before any
store access; otherwise the built document is inserted (appended) and
returned. -/
def createToken (user justification : String) (bytes : List Nat)
    (now : Nat) (store : List TokenDoc) :
    Except ModelError TokenDoc × List TokenDoc :=
  match _validateNoEmptyString "createToken" "user" user with
  | Except.error e => (Except.error e, store)
  | Except.ok _ =>
  match _validateNoEmptyString "createToken" "justification"
      justification with
  | Except.error e => (Except.error e, store)
  | Except.ok _ =>
    let token := generateTokenPromise bytes
    let doc := _buildToken token user justification now
    (Except.ok doc, store ++ [doc])

/-- The revoke update applied by `_updateToken`: set status REVOKED
and push a history entry. -/
def applyRevokeUpdate (now : Nat) (justification : String)
    (d : TokenDoc) : TokenDoc :=
  { d with
    status := TOKEN_STATUS_REVOKED
    hist := d.hist ++ [mkHistEntry now justification] }

/-- Embedding of `revokeToken`.  The match on the filtered store with
the single-element pattern renders `cursorHasExactlyOneDoc` followed by
`getDocument`; the owner check precedes the update. -/
def revokeToken (user token justification : String) (now : Nat)
    (store : List TokenDoc) :
    Except ModelError (Option TokenDoc) × List TokenDoc :=
  match _validateNoEmptyString "revokeToken" "user" user with
  | Except.error e => (Except.error e, store)
  | Except.ok _ =>
  match _validateNoEmptyString "revokeToken" "token" token with
  | Except.error e => (Except.error e, store)
  | Except.ok _ =>
  match _validateNoEmptyString "revokeToken" "justification"
      justification with
  | Except.error e => (Except.error e, store)
  | Except.ok _ =>
  match store.filter (fun d => d.token == token) with
  | [doc] =>
    if user = doc.user then
      let r := findOneAndUpdate (fun d => d.token == doc.token)
        (applyRevokeUpdate now justification) store
      (Except.ok r.1, r.2)
    else
      (Except.error (ModelError.error USER_NOT_TOKEN_OWNER), store)
  | _ => (Except.error (ModelError.dbError UNEXPECTED_NUM_DOCS), store)

/-- Lexicographic comparison of character lists, used to model the
mongodb string sort on the status field. -/
def charListLe : List Char → List Char → Bool
  | [], _ => true
  | _ :: _, [] => false
  | a :: as, b :: bs => if a = b then charListLe as bs else decide (a < b)

/-- The descending sort relation of `listTokens` (mongodb sort on
status with direction -1): a document sorts before another when its
status is lexicographically at least the other status. -/
def statusDescRel (a b : TokenDoc) : Prop :=
  charListLe b.status.data a.status.data = true

instance : DecidableRel statusDescRel := fun _ _ =>
  inferInstanceAs (Decidable (_ = true))

/-- Embedding of `listTokens`: the argument checks are only JS
truthiness (empty string is the sole falsy string) and the typeof
check; the result is the user filter of the store sorted with status
descending. -/
def listTokens (user : String) (store : List TokenDoc) :
    Except ModelError (List TokenDoc) :=
  if user = "" then
    Except.error (ModelError.assertionError
      "listTokens: user is not defined")
  else
    Except.ok (List.insertionSort statusDescRel
      (store.filter (fun d => d.user == user)))

/-- Embedding of `validateUser`.  The groups argument of a typed list
always passes the truthiness and Array checks.  A JS empty array is
truthy, so only an absent `groups` field takes the false-on-missing
branch; a present (possibly empty) group list proceeds to the
`every`/`indexOf` containment test. -/
def validateUser (groups : List String) (user : String)
    (users : List UserDoc) : Except ModelError Bool :=
  match _validateNoEmptyString "validateUser" "user" user with
  | Except.error e => Except.error e
  | Except.ok _ =>
  match users.filter (fun d => d.user == user) with
  | [doc] =>
    match doc.groups with
    | none => Except.ok false
    | some userGroups =>
      Except.ok (groups.all (fun val => userGroups.contains val))
  | _ => Except.error (ModelError.dbError UNEXPECTED_NUM_DOCS)

/-- Embedding of `validateToken`: exactly-one-document check, then the
REVOKED check, then the expiry check, then delegation to
`validateUser` with the owning user of the document. -/
def validateToken (groups : List String) (token : String) (now : Nat)
    (store : List TokenDoc) (users : List UserDoc) :
    Except ModelError Bool :=
  match _validateNoEmptyString "validateToken" "token" token with
  | Except.error e => Except.error e
  | Except.ok _ =>
  match store.filter (fun d => d.token == token) with
  | [doc] =>
    if doc.status == TOKEN_STATUS_REVOKED then Except.ok false
    else
      match doc.expiryTime with
      | some e =>
        if e < now then Except.ok false
        else validateUser groups doc.user users
      | none => validateUser groups doc.user users
  | _ => Except.error (ModelError.dbError UNEXPECTED_NUM_DOCS)

/-! Helper lemmas about validation, filtering, and the update step. -/

theorem validateNES_ok (scope name v : String) (h1 : v ≠ "")
    (h2 : jsTrim v ≠ "") :
    _validateNoEmptyString scope name v = Except.ok () := by
  unfold _validateNoEmptyString _validate
  simp [h1, h2]

theorem validateNES_blank (scope name v : String) (h1 : v ≠ "")
    (h2 : jsTrim v = "") :
    _validateNoEmptyString scope name v = Except.error
      (ModelError.assertionError
        (scope ++ ": " ++ name ++ " cannot be empty string")) := by
  unfold _validateNoEmptyString _validate
  simp [h1, h2]

theorem filter_eq_single {α : Type} (p : α → Bool) :
    ∀ (l : List α) (d : α), l.filter p = [d] →
      ∃ pre suf, l = pre ++ d :: suf ∧ (∀ x ∈ pre, p x = false) ∧
        (∀ x ∈ suf, p x = false) ∧ p d = true
  | [], d, h => by simp [List.filter] at h
  | a :: t, d, h => by
    cases hp : p a with
    | true =>
      rw [List.filter_cons_of_pos hp] at h
      have had : a = d := by exact (List.cons_eq_cons.mp h).1
      have hft : t.filter p = [] := by exact (List.cons_eq_cons.mp h).2
      refine ⟨[], t, by simp [had], by simp, ?_, had ▸ hp⟩
      intro x hx
      have := List.filter_eq_nil_iff.mp hft x hx
      simpa using this
    | false =>
      rw [List.filter_cons_of_neg (by simp [hp])] at h
      obtain ⟨pre, suf, hl, hpre, hsuf, hd⟩ := filter_eq_single p t d h
      refine ⟨a :: pre, suf, by simp [hl], ?_, hsuf, hd⟩
      intro x hx
      rcases List.mem_cons.mp hx with rfl | hx
      · exact hp
      · exact hpre x hx

theorem findOneAndUpdate_spec (p : TokenDoc → Bool)
    (f : TokenDoc → TokenDoc) :
    ∀ (pre : List TokenDoc) (d : TokenDoc) (suf : List TokenDoc),
      (∀ x ∈ pre, p x = false) → p d = true →
      findOneAndUpdate p f (pre ++ d :: suf) =
        (some (f d), pre ++ f d :: suf)
  | [], d, suf, _, hd => by simp [findOneAndUpdate, hd]
  | a :: pre, d, suf, hpre, hd => by
    have ha : p a = false := hpre a (by simp)
    have ih := findOneAndUpdate_spec p f pre d suf
      (fun x hx => hpre x (by simp [hx])) hd
    simp [findOneAndUpdate, ha, ih]

/-! Lemmas about the lexicographic status comparison. -/

theorem charListLe_trans :
    ∀ (l1 l2 l3 : List Char), charListLe l1 l2 = true →
      charListLe l2 l3 = true → charListLe l1 l3 = true
  | [], _, _, _, _ => rfl
  | _ :: _, [], _, h12, _ => by simp [charListLe] at h12
  | _ :: _, _ :: _, [], _, h23 => by simp [charListLe] at h23
  | a :: as, b :: bs, c :: cs, h12, h23 => by
    by_cases hab : a = b
    · subst hab
      rw [charListLe, if_pos rfl] at h12
      by_cases hac : a = c
      · subst hac
        rw [charListLe, if_pos rfl] at h23 ⊢
        exact charListLe_trans as bs cs h12 h23
      · rw [charListLe, if_neg hac] at h23 ⊢
        exact h23
    · rw [charListLe, if_neg hab] at h12
      have hab' : a < b := of_decide_eq_true h12
      by_cases hbc : b = c
      · subst hbc
        rw [charListLe, if_neg hab]
        exact h12
      · rw [charListLe, if_neg hbc] at h23
        have hbc' : b < c := of_decide_eq_true h23
        have hac' : a < c := lt_trans hab' hbc'
        rw [charListLe, if_neg (ne_of_lt hac')]
        exact decide_eq_true hac'

theorem charListLe_total :
    ∀ (l1 l2 : List Char),
      charListLe l1 l2 = true ∨ charListLe l2 l1 = true
  | [], _ => Or.inl rfl
  | _ :: _, [] => Or.inr rfl
  | a :: as, b :: bs => by
    by_cases hab : a = b
    · subst hab
      rw [charListLe, if_pos rfl, charListLe, if_pos rfl]
      exact charListLe_total as bs
    · rcases lt_or_gt_of_ne hab with h | h
      · left
        rw [charListLe, if_neg hab]
        exact decide_eq_true h
      · right
        rw [charListLe, if_neg (Ne.symm hab)]
        exact decide_eq_true h

instance : IsTrans TokenDoc statusDescRel where
  trans a b c hab hbc :=
    charListLe_trans c.status.data b.status.data a.status.data hbc hab

instance : IsTotal TokenDoc statusDescRel where
  total a b := (charListLe_total b.status.data a.status.data).imp id id

/-! Lemmas about the token generator. -/

theorem base64Char_urlSafe (m : Nat) (hm : m < 64) :
    isUrlSafeChar (urlSafeReplaceChar (base64Char m)) = true := by
  have h : ∀ m : Fin 64,
      isUrlSafeChar (urlSafeReplaceChar (base64Char m.val)) = true := by
    decide
  exact h ⟨m, hm⟩

theorem base64Encode_length_mul3 :
    ∀ (k : Nat) (l : List Nat), l.length = 3 * k →
      (base64Encode l).length = 4 * k
  | 0, l, h => by
    have : l = [] := List.eq_nil_of_length_eq_zero (by omega)
    subst this
    simp [base64Encode]
  | k + 1, l, h => by
    match l with
    | [] => simp at h
    | [b0] => simp at h; omega
    | [b0, b1] => simp at h; omega
    | b0 :: b1 :: b2 :: rest =>
      have hr : rest.length = 3 * k := by
        simp [List.length_cons] at h
        omega
      have ih := base64Encode_length_mul3 k rest hr
      simp [base64Encode, ih]
      omega

theorem base64Encode_urlSafe :
    ∀ (k : Nat) (l : List Nat), l.length = 3 * k →
      ∀ c ∈ base64Encode l, isUrlSafeChar (urlSafeReplaceChar c) = true
  | 0, l, h => by
    have : l = [] := List.eq_nil_of_length_eq_zero (by omega)
    subst this
    simp [base64Encode]
  | k + 1, l, h => by
    match l with
    | [] => simp at h
    | [b0] => simp at h; omega
    | [b0, b1] => simp at h; omega
    | b0 :: b1 :: b2 :: rest =>
      have hr : rest.length = 3 * k := by
        simp [List.length_cons] at h
        omega
      intro c hc
      have hb : (b0 % 256) * 65536 + (b1 % 256) * 256 + b2 % 256
          < 16777216 := by
        have h0 : b0 % 256 < 256 := Nat.mod_lt _ (by omega)
        have h1 : b1 % 256 < 256 := Nat.mod_lt _ (by omega)
        have h2 : b2 % 256 < 256 := Nat.mod_lt _ (by omega)
        omega
      simp only [base64Encode, List.mem_cons] at hc
      rcases hc with rfl | rfl | rfl | rfl | hc
      · exact base64Char_urlSafe _ (by omega)
      · exact base64Char_urlSafe _ (Nat.mod_lt _ (by omega))
      · exact base64Char_urlSafe _ (Nat.mod_lt _ (by omega))
      · exact base64Char_urlSafe _ (Nat.mod_lt _ (by omega))
      · exact base64Encode_urlSafe k rest hr c hc

theorem generateTokenPromise_length (bytes : List Nat)
    (h : bytes.length = 24) :
    (generateTokenPromise bytes).length = 32 := by
  have he : (base64Encode bytes).length = 32 :=
    base64Encode_length_mul3 8 bytes (by omega)
  show ((base64Encode bytes).map urlSafeReplaceChar).length = 32
  simp [he]

theorem generateTokenPromise_urlSafe (bytes : List Nat)
    (h : bytes.length = 24) :
    ∀ c ∈ (generateTokenPromise bytes).data, isUrlSafeChar c = true := by
  intro c hc
  have hc' : c ∈ (base64Encode bytes).map urlSafeReplaceChar := hc
  obtain ⟨c0, hc0, rfl⟩ := List.mem_map.mp hc'
  exact base64Encode_urlSafe 8 bytes (by omega) c0 hc0

/-! Lemmas about jsTrim on url-safe strings. -/

theorem dropWhile_eq_self_of_not (p : Char → Bool) :
    ∀ (l : List Char), (∀ x ∈ l, p x = false) → l.dropWhile p = l
  | [], _ => rfl
  | a :: t, h => by
    have := h a (by simp)
    simp [List.dropWhile_cons, this]

theorem jsTrim_eq_self (s : String)
    (h : ∀ c ∈ s.data, Char.isWhitespace c = false) : jsTrim s = s := by
  unfold jsTrim
  rw [dropWhile_eq_self_of_not _ _ h]
  rw [dropWhile_eq_self_of_not _ _
    (fun x hx => h x (List.mem_reverse.mp hx))]
  simp

theorem urlSafe_not_whitespace (c : Char)
    (h : isUrlSafeChar c = true) : c.isWhitespace = false := by
  cases hw : c.isWhitespace with
  | false => rfl
  | true =>
    exfalso
    simp only [Char.isWhitespace, Bool.or_eq_true, decide_eq_true_eq] at hw
    rcases hw with ((rfl | rfl) | rfl) | rfl <;> exact absurd h (by decide)

theorem ne_empty_of_length (s : String) (h : s.length = 32) :
    s ≠ "" := by
  intro he
  rw [he] at h
  simp at h

theorem generateTokenPromise_validArg (bytes : List Nat)
    (h : bytes.length = 24) :
    generateTokenPromise bytes ≠ "" ∧
      jsTrim (generateTokenPromise bytes) ≠ "" := by
  have hne := ne_empty_of_length _ (generateTokenPromise_length bytes h)
  refine ⟨hne, ?_⟩
  rw [jsTrim_eq_self _ (fun c hc =>
    urlSafe_not_whitespace c (generateTokenPromise_urlSafe bytes h c hc))]
  exact hne

/-! Shape lemmas for the lifecycle operations. -/

theorem createToken_ok (user justification : String) (bytes : List Nat)
    (now : Nat) (store : List TokenDoc)
    (hu1 : user ≠ "") (hu2 : jsTrim user ≠ "")
    (hj1 : justification ≠ "") (hj2 : jsTrim justification ≠ "") :
    createToken user justification bytes now store =
      (Except.ok
        (_buildToken (generateTokenPromise bytes) user justification now),
       store ++
        [_buildToken (generateTokenPromise bytes) user justification now]) := by
  unfold createToken
  rw [validateNES_ok _ _ _ hu1 hu2, validateNES_ok _ _ _ hj1 hj2]

theorem revokeToken_notOne (user token justification : String)
    (now : Nat) (store : List TokenDoc)
    (hu1 : user ≠ "") (hu2 : jsTrim user ≠ "")
    (ht1 : token ≠ "") (ht2 : jsTrim token ≠ "")
    (hj1 : justification ≠ "") (hj2 : jsTrim justification ≠ "")
    (hlen : (store.filter (fun d => d.token == token)).length ≠ 1) :
    revokeToken user token justification now store =
      (Except.error (ModelError.dbError UNEXPECTED_NUM_DOCS), store) := by
  unfold revokeToken
  rw [validateNES_ok _ _ _ hu1 hu2, validateNES_ok _ _ _ ht1 ht2,
    validateNES_ok _ _ _ hj1 hj2]
  rcases hl : store.filter (fun d => d.token == token) with
    _ | ⟨d, _ | ⟨d2, t⟩⟩
  · rw [hl]
  · rw [hl] at hlen
    simp at hlen
  · rw [hl]

theorem revokeToken_notOwner (user token justification : String)
    (now : Nat) (store : List TokenDoc) (doc : TokenDoc)
    (hu1 : user ≠ "") (hu2 : jsTrim user ≠ "")
    (ht1 : token ≠ "") (ht2 : jsTrim token ≠ "")
    (hj1 : justification ≠ "") (hj2 : jsTrim justification ≠ "")
    (hfind : store.filter (fun d => d.token == token) = [doc])
    (howner : user ≠ doc.user) :
    revokeToken user token justification now store =
      (Except.error (ModelError.error USER_NOT_TOKEN_OWNER), store) := by
  unfold revokeToken
  rw [validateNES_ok _ _ _ hu1 hu2, validateNES_ok _ _ _ ht1 ht2,
    validateNES_ok _ _ _ hj1 hj2, hfind]
  simp [howner]

theorem revokeToken_success (user token justification : String)
    (now : Nat) (store : List TokenDoc) (doc : TokenDoc)
    (hu1 : user ≠ "") (hu2 : jsTrim user ≠ "")
    (ht1 : token ≠ "") (ht2 : jsTrim token ≠ "")
    (hj1 : justification ≠ "") (hj2 : jsTrim justification ≠ "")
    (hfind : store.filter (fun d => d.token == token) = [doc])
    (howner : user = doc.user) :
    ∃ pre suf, store = pre ++ doc :: suf ∧
      (∀ x ∈ pre, (x.token == token) = false) ∧
      (∀ x ∈ suf, (x.token == token) = false) ∧
      revokeToken user token justification now store =
        (Except.ok (some (applyRevokeUpdate now justification doc)),
         pre ++ applyRevokeUpdate now justification doc :: suf) := by
  obtain ⟨pre, suf, hstore, hpre, hsuf, hd⟩ :=
    filter_eq_single (fun d => d.token == token) store doc hfind
  refine ⟨pre, suf, hstore, hpre, hsuf, ?_⟩
  unfold revokeToken
  rw [validateNES_ok _ _ _ hu1 hu2, validateNES_ok _ _ _ ht1 ht2,
    validateNES_ok _ _ _ hj1 hj2, hfind]
  have htok : doc.token = token := by simpa using hd
  have hupd : findOneAndUpdate (fun d => d.token == doc.token)
      (applyRevokeUpdate now justification) store =
      (some (applyRevokeUpdate now justification doc),
       pre ++ applyRevokeUpdate now justification doc :: suf) := by
    rw [hstore]
    exact findOneAndUpdate_spec _ _ pre doc suf
      (fun x hx => by rw [htok]; exact hpre x hx)
      (by simp [htok])
  simp [howner, hupd]

theorem validateUser_notOne (groups : List String) (user : String)
    (users : List UserDoc)
    (hu1 : user ≠ "") (hu2 : jsTrim user ≠ "")
    (hlen : (users.filter (fun d => d.user == user)).length ≠ 1) :
    validateUser groups user users =
      Except.error (ModelError.dbError UNEXPECTED_NUM_DOCS) := by
  unfold validateUser
  rw [validateNES_ok _ _ _ hu1 hu2]
  rcases hl : users.filter (fun d => d.user == user) with
    _ | ⟨d, _ | ⟨d2, t⟩⟩
  · rw [hl]
  · rw [hl] at hlen
    simp at hlen
  · rw [hl]

theorem validateUser_found (groups : List String) (user : String)
    (users : List UserDoc) (doc : UserDoc)
    (hu1 : user ≠ "") (hu2 : jsTrim user ≠ "")
    (hfind : users.filter (fun d => d.user == user) = [doc]) :
    validateUser groups user users =
      (match doc.groups with
       | none => Except.ok false
       | some userGroups =>
         Except.ok (groups.all (fun val => userGroups.contains val))) := by
  unfold validateUser
  rw [validateNES_ok _ _ _ hu1 hu2, hfind]

theorem validateToken_notOne (groups : List String) (token : String)
    (now : Nat) (store : List TokenDoc) (users : List UserDoc)
    (ht1 : token ≠ "") (ht2 : jsTrim token ≠ "")
    (hlen : (store.filter (fun d => d.token == token)).length ≠ 1) :
    validateToken groups token now store users =
      Except.error (ModelError.dbError UNEXPECTED_NUM_DOCS) := by
  unfold validateToken
  rw [validateNES_ok _ _ _ ht1 ht2]
  rcases hl : store.filter (fun d => d.token == token) with
    _ | ⟨d, _ | ⟨d2, t⟩⟩
  · rw [hl]
  · rw [hl] at hlen
    simp at hlen
  · rw [hl]

theorem validateToken_revoked (groups : List String) (token : String)
    (now : Nat) (store : List TokenDoc) (users : List UserDoc)
    (doc : TokenDoc)
    (ht1 : token ≠ "") (ht2 : jsTrim token ≠ "")
    (hfind : store.filter (fun d => d.token == token) = [doc])
    (hstatus : doc.status = TOKEN_STATUS_REVOKED) :
    validateToken groups token now store users = Except.ok false := by
  unfold validateToken
  rw [validateNES_ok _ _ _ ht1 ht2, hfind]
  simp [hstatus]

theorem validateToken_expired (groups : List String) (token : String)
    (now : Nat) (store : List TokenDoc) (users : List UserDoc)
    (doc : TokenDoc) (e : Nat)
    (ht1 : token ≠ "") (ht2 : jsTrim token ≠ "")
    (hfind : store.filter (fun d => d.token == token) = [doc])
    (hstatus : doc.status ≠ TOKEN_STATUS_REVOKED)
    (hexp : doc.expiryTime = some e) (hlt : e < now) :
    validateToken groups token now store users = Except.ok false := by
  unfold validateToken
  rw [validateNES_ok _ _ _ ht1 ht2, hfind]
  simp [hstatus, hexp, hlt]

theorem validateToken_live (groups : List String) (token : String)
    (now : Nat) (store : List TokenDoc) (users : List UserDoc)
    (doc : TokenDoc)
    (ht1 : token ≠ "") (ht2 : jsTrim token ≠ "")
    (hfind : store.filter (fun d => d.token == token) = [doc])
    (hstatus : doc.status ≠ TOKEN_STATUS_REVOKED)
    (hexp : ∀ e, doc.expiryTime = some e → ¬ e < now) :
    validateToken groups token now store users =
      validateUser groups doc.user users := by
  unfold validateToken
  rw [validateNES_ok _ _ _ ht1 ht2, hfind]
  rcases he : doc.expiryTime with _ | e
  · simp [hstatus, he]
  · simp [hstatus, he, hexp e he]

/-! Claim theorems. -/

/-- Claim C1, counterexample: a successful create yields a history
whose single entry carries only the fields time and reason; looking up
operatingUser or operation in that entry yields nothing, so the entry
is not of the claimed four-field form with operation CREATE. -/
theorem C1_counterexample :
    (createToken "u" "j" (List.replicate 24 0) 0 []).1 =
      Except.ok ⟨String.mk (List.replicate 32 'A'), TOKEN_STATUS_VALID,
        [[("time", "0"), ("reason", "j")]], "u", some 604800000⟩ ∧
    List.lookup "operatingUser"
      ([("time", "0"), ("reason", "j")] : HistEntry) = none ∧
    List.lookup "operation"
      ([("time", "0"), ("reason", "j")] : HistEntry) = none :=
  ⟨rfl, rfl, rfl⟩

/-- Claim C1 (amended): every successful create returns a record whose
history is the single entry with fields time and reason, where reason
is the justification; and every successful revoke appends one history
entry of the same two-field form.  No operatingUser or operation field
is recorded. -/
theorem C1_hist_entries (user token justification : String)
    (bytes : List Nat) (now : Nat) (store : List TokenDoc)
    (doc : TokenDoc)
    (hu1 : user ≠ "") (hu2 : jsTrim user ≠ "")
    (hj1 : justification ≠ "") (hj2 : jsTrim justification ≠ "")
    (ht1 : token ≠ "") (ht2 : jsTrim token ≠ "")
    (hfind : store.filter (fun d => d.token == token) = [doc])
    (howner : user = doc.user) :
    (∀ d, (createToken user justification bytes now store).1 =
        Except.ok d →
      d.hist = [[("time", toString now), ("reason", justification)]]) ∧
    (∀ r, (revokeToken user token justification now store).1 =
        Except.ok (some r) →
      r.hist = doc.hist ++
        [[("time", toString now), ("reason", justification)]]) := by
  constructor
  · intro d hd
    rw [createToken_ok user justification bytes now store
      hu1 hu2 hj1 hj2] at hd
    cases hd
    rfl
  · intro r hr
    obtain ⟨pre, suf, hstore, hpre, hsuf, heq⟩ :=
      revokeToken_success user token justification now store doc
        hu1 hu2 ht1 ht2 hj1 hj2 hfind howner
    rw [heq] at hr
    simp only [Except.ok.injEq, Option.some.injEq] at hr
    rw [← hr]
    rfl

/-- Witness for claim C1 at a concrete input. -/
theorem C1_witness :
    (∀ d, (createToken "u" "j" (List.replicate 24 0) 0
        [⟨"t", TOKEN_STATUS_VALID, [], "u", none⟩]).1 = Except.ok d →
      d.hist = [[("time", "0"), ("reason", "j")]]) ∧
    (∀ r, (revokeToken "u" "t" "j" 0
        [⟨"t", TOKEN_STATUS_VALID, [], "u", none⟩]).1 =
          Except.ok (some r) →
      r.hist = [] ++ [[("time", "0"), ("reason", "j")]]) :=
  C1_hist_entries "u" "t" "j" (List.replicate 24 0) 0
    [⟨"t", TOKEN_STATUS_VALID, [], "u", none⟩]
    ⟨"t", TOKEN_STATUS_VALID, [], "u", none⟩
    (by decide) (by decide) (by decide) (by decide) (by decide)
    (by decide) (by decide) rfl

/-- Claim C2, counterexample: for a user record whose group set is
empty and an empty requiredGroups, evaluation returns true, not false
as the claim states. -/
theorem C2_counterexample :
    validateUser [] "u" [⟨"u", some []⟩] = Except.ok true ∧
    validateUser [] "u" [⟨"u", some []⟩] ≠ Except.ok false :=
  ⟨rfl, fun h => Bool.noConfusion (Except.ok.inj h)⟩

/-- Claim C2 (amended): when the user record has no groups field,
evaluation returns false for every requiredGroups, including the empty
one; when the groups field is present (even as the empty set),
evaluation returns true iff every element of requiredGroups is in the
group set, by exact string match and independent of order — in
particular an empty requiredGroups yields true even for an empty group
set. -/
theorem C2_group_evaluation (requiredGroups : List String)
    (user : String) (users : List UserDoc) (doc : UserDoc)
    (hu1 : user ≠ "") (hu2 : jsTrim user ≠ "")
    (hfind : users.filter (fun d => d.user == user) = [doc]) :
    (doc.groups = none →
      validateUser requiredGroups user users = Except.ok false) ∧
    (∀ gs, doc.groups = some gs →
      validateUser requiredGroups user users =
        Except.ok (requiredGroups.all (fun g => gs.contains g)) ∧
      (validateUser requiredGroups user users = Except.ok true ↔
        ∀ g ∈ requiredGroups, g ∈ gs)) := by
  have hbase := validateUser_found requiredGroups user users doc
    hu1 hu2 hfind
  constructor
  · intro hg
    rw [hbase, hg]
  · intro gs hg
    rw [hbase, hg]
    refine ⟨rfl, ?_⟩
    constructor
    · intro h
      simp only [Except.ok.injEq] at h
      intro g hgmem
      have := List.all_eq_true.mp h g hgmem
      simpa using this
    · intro h
      have hall : requiredGroups.all (fun g => gs.contains g) = true :=
        List.all_eq_true.mpr (fun g hgmem => by
          simpa using h g hgmem)
      show Except.ok (requiredGroups.all fun val => gs.contains val) =
        Except.ok true
      rw [hall]

/-- Witness for claim C2 at a concrete input. -/
theorem C2_witness :
    ((⟨"u", some ["g1", "g2"]⟩ : UserDoc).groups = none →
      validateUser ["g1"] "u" [⟨"u", some ["g1", "g2"]⟩] =
        Except.ok false) ∧
    (∀ gs, (⟨"u", some ["g1", "g2"]⟩ : UserDoc).groups = some gs →
      validateUser ["g1"] "u" [⟨"u", some ["g1", "g2"]⟩] =
        Except.ok (["g1"].all (fun g => gs.contains g)) ∧
      (validateUser ["g1"] "u" [⟨"u", some ["g1", "g2"]⟩] =
          Except.ok true ↔ ∀ g ∈ ["g1"], g ∈ gs)) :=
  C2_group_evaluation ["g1"] "u" [⟨"u", some ["g1", "g2"]⟩]
    ⟨"u", some ["g1", "g2"]⟩ (by decide) (by decide) rfl

/-- Claim C3: with valid arguments, revoke fails with the
NotFoundOrAmbiguous database error and an unchanged store when the
number of matching records is not exactly one; fails with the NotOwner
error and an unchanged store when the single match is owned by a
different user; and otherwise updates that record to status REVOKED
with one appended history entry, returning the post-update record. -/
theorem C3_revoke_cases (user token justification : String) (now : Nat)
    (store : List TokenDoc)
    (hu1 : user ≠ "") (hu2 : jsTrim user ≠ "")
    (ht1 : token ≠ "") (ht2 : jsTrim token ≠ "")
    (hj1 : justification ≠ "") (hj2 : jsTrim justification ≠ "") :
    ((store.filter (fun d => d.token == token)).length ≠ 1 →
      revokeToken user token justification now store =
        (Except.error (ModelError.dbError UNEXPECTED_NUM_DOCS), store)) ∧
    (∀ doc, store.filter (fun d => d.token == token) = [doc] →
      (user ≠ doc.user →
        revokeToken user token justification now store =
          (Except.error (ModelError.error USER_NOT_TOKEN_OWNER),
           store)) ∧
      (user = doc.user →
        ∃ pre suf, store = pre ++ doc :: suf ∧
          revokeToken user token justification now store =
            (Except.ok (some (applyRevokeUpdate now justification doc)),
             pre ++ applyRevokeUpdate now justification doc :: suf) ∧
          (applyRevokeUpdate now justification doc).status =
            TOKEN_STATUS_REVOKED ∧
          (applyRevokeUpdate now justification doc).hist.length =
            doc.hist.length + 1)) := by
  refine ⟨?_, ?_⟩
  · intro hlen
    exact revokeToken_notOne user token justification now store
      hu1 hu2 ht1 ht2 hj1 hj2 hlen
  · intro doc hfind
    refine ⟨?_, ?_⟩
    · intro howner
      exact revokeToken_notOwner user token justification now store doc
        hu1 hu2 ht1 ht2 hj1 hj2 hfind howner
    · intro howner
      obtain ⟨pre, suf, hstore, hpre, hsuf, heq⟩ :=
        revokeToken_success user token justification now store doc
          hu1 hu2 ht1 ht2 hj1 hj2 hfind howner
      refine ⟨pre, suf, hstore, heq, rfl, ?_⟩
      simp [applyRevokeUpdate]

/-- Witness for claim C3 at a concrete input: a non-owner revoke
fails with the NotOwner error and leaves the store unchanged. -/
theorem C3_witness :
    revokeToken "v" "t" "j" 5
      [⟨"t", TOKEN_STATUS_VALID, [], "u", none⟩] =
      (Except.error (ModelError.error USER_NOT_TOKEN_OWNER),
       [⟨"t", TOKEN_STATUS_VALID, [], "u", none⟩]) := by
  have h := C3_revoke_cases "v" "t" "j" 5
    [⟨"t", TOKEN_STATUS_VALID, [], "u", none⟩]
    (by decide) (by decide) (by decide) (by decide) (by decide)
    (by decide)
  exact (h.2 ⟨"t", TOKEN_STATUS_VALID, [], "u", none⟩ rfl).1 (by decide)

/-- Claim C4: an owner revoke of a token whose single record is
already REVOKED succeeds, appends one further history entry, and
leaves the status at REVOKED. -/
theorem C4_double_revoke (user token justification : String)
    (now : Nat) (store : List TokenDoc) (doc : TokenDoc)
    (hu1 : user ≠ "") (hu2 : jsTrim user ≠ "")
    (ht1 : token ≠ "") (ht2 : jsTrim token ≠ "")
    (hj1 : justification ≠ "") (hj2 : jsTrim justification ≠ "")
    (hfind : store.filter (fun d => d.token == token) = [doc])
    (howner : user = doc.user)
    (hstatus : doc.status = TOKEN_STATUS_REVOKED) :
    ∃ r, (revokeToken user token justification now store).1 =
        Except.ok (some r) ∧
      r.status = TOKEN_STATUS_REVOKED ∧
      r.hist.length = doc.hist.length + 1 := by
  obtain ⟨pre, suf, hstore, hpre, hsuf, heq⟩ :=
    revokeToken_success user token justification now store doc
      hu1 hu2 ht1 ht2 hj1 hj2 hfind howner
  refine ⟨applyRevokeUpdate now justification doc, ?_, rfl, ?_⟩
  · rw [heq]
  · simp [applyRevokeUpdate]

/-- Witness for claim C4 at a concrete input. -/
theorem C4_witness :
    ∃ r, (revokeToken "u" "t" "j" 7
      [⟨"t", TOKEN_STATUS_REVOKED, [[("time", "0"), ("reason", "x")]],
        "u", none⟩]).1 = Except.ok (some r) ∧
      r.status = TOKEN_STATUS_REVOKED ∧
      r.hist.length =
        ([[("time", "0"), ("reason", "x")]] : List HistEntry).length
          + 1 :=
  C4_double_revoke "u" "t" "j" 7
    [⟨"t", TOKEN_STATUS_REVOKED, [[("time", "0"), ("reason", "x")]],
      "u", none⟩]
    ⟨"t", TOKEN_STATUS_REVOKED, [[("time", "0"), ("reason", "x")]],
      "u", none⟩
    (by decide) (by decide) (by decide) (by decide) (by decide)
    (by decide) rfl rfl rfl

/-- Claim C5: with valid arguments, validate fails with the
NotFoundOrAmbiguous database error when the number of matching
records is not exactly one; otherwise returns false when the record
is REVOKED (regardless of expiry), false when it is unrevoked but its
expiry instant lies strictly before now, and otherwise the result of
the group membership evaluation for the owning user — the checks
applying in exactly that order. -/
theorem C5_validate_order (groups : List String) (token : String)
    (now : Nat) (store : List TokenDoc) (users : List UserDoc)
    (ht1 : token ≠ "") (ht2 : jsTrim token ≠ "") :
    ((store.filter (fun d => d.token == token)).length ≠ 1 →
      validateToken groups token now store users =
        Except.error (ModelError.dbError UNEXPECTED_NUM_DOCS)) ∧
    (∀ doc, store.filter (fun d => d.token == token) = [doc] →
      (doc.status = TOKEN_STATUS_REVOKED →
        validateToken groups token now store users = Except.ok false) ∧
      (doc.status ≠ TOKEN_STATUS_REVOKED →
        (∀ e, doc.expiryTime = some e → e < now →
          validateToken groups token now store users =
            Except.ok false) ∧
        ((∀ e, doc.expiryTime = some e → ¬ e < now) →
          validateToken groups token now store users =
            validateUser groups doc.user users))) := by
  refine ⟨?_, ?_⟩
  · intro hlen
    exact validateToken_notOne groups token now store users
      ht1 ht2 hlen
  · intro doc hfind
    refine ⟨?_, ?_⟩
    · intro hstatus
      exact validateToken_revoked groups token now store users doc
        ht1 ht2 hfind hstatus
    · intro hstatus
      refine ⟨?_, ?_⟩
      · intro e hexp hlt
        exact validateToken_expired groups token now store users doc e
          ht1 ht2 hfind hstatus hexp hlt
      · intro hexp
        exact validateToken_live groups token now store users doc
          ht1 ht2 hfind hstatus hexp

/-- Witness for claim C5 at a concrete input: a revoked token
validates to false even though it is unexpired and its owner is in
every required group. -/
theorem C5_witness :
    validateToken ["g"] "t" 0
      [⟨"t", TOKEN_STATUS_REVOKED, [], "u", some 100⟩]
      [⟨"u", some ["g"]⟩] = Except.ok false := by
  have h := C5_validate_order ["g"] "t" 0
    [⟨"t", TOKEN_STATUS_REVOKED, [], "u", some 100⟩]
    [⟨"u", some ["g"]⟩] (by decide) (by decide)
  exact (h.2 ⟨"t", TOKEN_STATUS_REVOKED, [], "u", some 100⟩ rfl).1 rfl

/-- Claim C6: for valid arguments and 24 random bytes, create returns
and inserts a record with status VALID, a single-entry history, an
expiry of the creation instant plus 7 days, and a 32-character token
drawn from the URL-safe alphabet of letters, digits, dash and
underscore. -/
theorem C6_create_record (user justification : String)
    (bytes : List Nat) (now : Nat) (store : List TokenDoc)
    (hu1 : user ≠ "") (hu2 : jsTrim user ≠ "")
    (hj1 : justification ≠ "") (hj2 : jsTrim justification ≠ "")
    (hb : bytes.length = 24) :
    ∃ doc, createToken user justification bytes now store =
        (Except.ok doc, store ++ [doc]) ∧
      doc.status = TOKEN_STATUS_VALID ∧
      doc.hist.length = 1 ∧
      doc.expiryTime = some (now + 7 * msPerDay) ∧
      doc.token = generateTokenPromise bytes ∧
      doc.token.length = 32 ∧
      (∀ c ∈ doc.token.data, isUrlSafeChar c = true) := by
  refine ⟨_buildToken (generateTokenPromise bytes) user justification
    now, createToken_ok user justification bytes now store
    hu1 hu2 hj1 hj2, rfl, rfl, rfl, rfl,
    generateTokenPromise_length bytes hb,
    generateTokenPromise_urlSafe bytes hb⟩

/-- Witness for claim C6 at a concrete input. -/
theorem C6_witness :
    ∃ doc, createToken "u" "j" (List.replicate 24 0) 0 [] =
        (Except.ok doc, [] ++ [doc]) ∧
      doc.status = TOKEN_STATUS_VALID ∧
      doc.hist.length = 1 ∧
      doc.expiryTime = some (0 + 7 * msPerDay) ∧
      doc.token = generateTokenPromise (List.replicate 24 0) ∧
      doc.token.length = 32 ∧
      (∀ c ∈ doc.token.data, isUrlSafeChar c = true) :=
  C6_create_record "u" "j" (List.replicate 24 0) 0 []
    (by decide) (by decide) (by decide) (by decide) (by decide)

/-- Claim C7, counterexample: when the single directory record for
the creating user has no groups field, creating a token and
immediately validating it with an empty required-group set returns
false, not true as the claim states. -/
theorem C7_counterexample :
    (createToken "u" "j" (List.replicate 24 0) 0 []).1 =
      Except.ok (_buildToken (String.mk (List.replicate 32 'A'))
        "u" "j" 0) ∧
    validateToken [] (String.mk (List.replicate 32 'A')) 0
      (createToken "u" "j" (List.replicate 24 0) 0 []).2
      [⟨"u", none⟩] = Except.ok false ∧
    validateToken [] (String.mk (List.replicate 32 'A')) 0
      (createToken "u" "j" (List.replicate 24 0) 0 []).2
      [⟨"u", none⟩] ≠ Except.ok true :=
  ⟨rfl, rfl, fun h => Bool.noConfusion (Except.ok.inj h)⟩

/-- Claim C7 (amended): for valid arguments, a fresh generated token
(no existing record holds it, per the store uniqueness invariant), and
a user directory holding exactly one record for the user with a
groups field present (possibly empty), creating a token and
immediately validating it with an empty required-group set returns
true; when the groups field of that record is absent, the same
round trip returns false. -/
theorem C7_roundtrip (user justification : String) (bytes : List Nat)
    (now : Nat) (store : List TokenDoc) (users : List UserDoc)
    (udoc : UserDoc)
    (hu1 : user ≠ "") (hu2 : jsTrim user ≠ "")
    (hj1 : justification ≠ "") (hj2 : jsTrim justification ≠ "")
    (hb : bytes.length = 24)
    (hfresh : ∀ d ∈ store,
      (d.token == generateTokenPromise bytes) = false)
    (husers : users.filter (fun d => d.user == user) = [udoc]) :
    (∀ gs, udoc.groups = some gs →
      validateToken [] (generateTokenPromise bytes) now
        (createToken user justification bytes now store).2 users =
        Except.ok true) ∧
    (udoc.groups = none →
      validateToken [] (generateTokenPromise bytes) now
        (createToken user justification bytes now store).2 users =
        Except.ok false) := by
  have hcreate := createToken_ok user justification bytes now store
    hu1 hu2 hj1 hj2
  have hstore2 : (createToken user justification bytes now store).2 =
      store ++ [_buildToken (generateTokenPromise bytes) user
        justification now] := by
    rw [hcreate]
  have harg := generateTokenPromise_validArg bytes hb
  have hfind : (store ++ [_buildToken (generateTokenPromise bytes)
      user justification now]).filter
        (fun d => d.token == generateTokenPromise bytes) =
      [_buildToken (generateTokenPromise bytes) user justification
        now] := by
    rw [List.filter_append]
    have h1 : store.filter
        (fun d => d.token == generateTokenPromise bytes) = [] :=
      List.filter_eq_nil_iff.mpr (fun d hd => by simp [hfresh d hd])
    rw [h1]
    simp [_buildToken]
  have hlive : validateToken [] (generateTokenPromise bytes) now
      (createToken user justification bytes now store).2 users =
      validateUser [] user users := by
    rw [hstore2]
    have := validateToken_live [] (generateTokenPromise bytes) now
      (store ++ [_buildToken (generateTokenPromise bytes) user
        justification now]) users
      (_buildToken (generateTokenPromise bytes) user justification
        now)
      harg.1 harg.2 hfind
      (by simp [_buildToken, TOKEN_STATUS_VALID, TOKEN_STATUS_REVOKED])
      (fun e he hlt => by
        simp only [_buildToken, Option.some.injEq] at he
        omega)
    rw [this]
    rfl
  have hfound := fun groups =>
    validateUser_found groups user users udoc hu1 hu2 husers
  constructor
  · intro gs hg
    rw [hlive, hfound [], hg]
    rfl
  · intro hg
    rw [hlive, hfound [], hg]

/-- Witness for claim C7 at a concrete input. -/
theorem C7_witness :
    (∀ gs, (⟨"u", some []⟩ : UserDoc).groups = some gs →
      validateToken [] (generateTokenPromise (List.replicate 24 0)) 0
        (createToken "u" "j" (List.replicate 24 0) 0 []).2
        [⟨"u", some []⟩] = Except.ok true) ∧
    ((⟨"u", some []⟩ : UserDoc).groups = none →
      validateToken [] (generateTokenPromise (List.replicate 24 0)) 0
        (createToken "u" "j" (List.replicate 24 0) 0 []).2
        [⟨"u", some []⟩] = Except.ok false) :=
  C7_roundtrip "u" "j" (List.replicate 24 0) 0 [] [⟨"u", some []⟩]
    ⟨"u", some []⟩ (by decide) (by decide) (by decide) (by decide)
    (by decide) (fun d hd => absurd hd (List.not_mem_nil d)) rfl

/-- Claim C8: for a non-empty user string, list returns all the token
records of that user (as a permutation of the store filter), ordered
so that no REVOKED record precedes a VALID one, and returns the empty
sequence rather than an error when the user has no tokens. -/
theorem C8_list (user : String) (store : List TokenDoc)
    (hu : user ≠ "") :
    ∃ l, listTokens user store = Except.ok l ∧
      List.Perm l (store.filter (fun d => d.user == user)) ∧
      List.Pairwise (fun a b => ¬(a.status = TOKEN_STATUS_REVOKED ∧
        b.status = TOKEN_STATUS_VALID)) l ∧
      (store.filter (fun d => d.user == user) = [] → l = []) := by
  refine ⟨List.insertionSort statusDescRel
    (store.filter (fun d => d.user == user)), ?_, ?_, ?_, ?_⟩
  · unfold listTokens
    rw [if_neg hu]
  · exact List.perm_insertionSort statusDescRel _
  · have hs := List.sorted_insertionSort statusDescRel
      (store.filter (fun d => d.user == user))
    refine hs.imp ?_
    intro a b hab hcontra
    obtain ⟨ha, hb⟩ := hcontra
    have : charListLe b.status.data a.status.data = true := hab
    rw [ha, hb] at this
    exact absurd this (by decide)
  · intro hnil
    rw [hnil]
    rfl

/-- Witness for claim C8 at a concrete input. -/
theorem C8_witness :
    ∃ l, listTokens "u"
        [⟨"a", TOKEN_STATUS_REVOKED, [], "u", none⟩,
         ⟨"b", TOKEN_STATUS_VALID, [], "u", none⟩] = Except.ok l ∧
      List.Perm l
        (List.filter (fun d => d.user == "u")
          ([⟨"a", TOKEN_STATUS_REVOKED, [], "u", none⟩,
            ⟨"b", TOKEN_STATUS_VALID, [], "u", none⟩] :
            List TokenDoc)) ∧
      List.Pairwise (fun a b => ¬(a.status = TOKEN_STATUS_REVOKED ∧
        b.status = TOKEN_STATUS_VALID)) l ∧
      (List.filter (fun d => d.user == "u")
          ([⟨"a", TOKEN_STATUS_REVOKED, [], "u", none⟩,
            ⟨"b", TOKEN_STATUS_VALID, [], "u", none⟩] :
            List TokenDoc) = [] → l = []) :=
  C8_list "u"
    [⟨"a", TOKEN_STATUS_REVOKED, [], "u", none⟩,
     ⟨"b", TOKEN_STATUS_VALID, [], "u", none⟩] (by decide)

theorem findOneAndUpdate_forall2 (p : TokenDoc → Bool)
    (f : TokenDoc → TokenDoc) :
    ∀ store : List TokenDoc,
      List.Forall₂ (fun old new => new = old ∨ new = f old) store
        (findOneAndUpdate p f store).2
  | [] => List.Forall₂.nil
  | d :: rest => by
    unfold findOneAndUpdate
    cases hp : p d with
    | true =>
      simp only [hp, if_true]
      exact List.Forall₂.cons (Or.inr rfl)
        (List.forall₂_same.mpr (fun a _ => Or.inl rfl))
    | false =>
      simp only [hp, if_false]
      exact List.Forall₂.cons (Or.inl rfl)
        (findOneAndUpdate_forall2 p f rest)

/-- Claim C9: every created record starts with status VALID (create
either leaves the store unchanged on failure or appends exactly the
new VALID record); revoke either keeps each stored record unchanged or
replaces it by its revoke update; and the revoke update always sets
status to REVOKED — so the only status transition ever performed is to
REVOKED and a REVOKED record is never set back to VALID. -/
theorem C9_status_machine :
    (∀ user justification bytes now store,
      (createToken user justification bytes now store).2 = store ∨
      ∃ d, createToken user justification bytes now store =
        (Except.ok d, store ++ [d]) ∧
        d.status = TOKEN_STATUS_VALID) ∧
    (∀ user token justification now store,
      List.Forall₂ (fun old new => new = old ∨
        new = applyRevokeUpdate now justification old)
        store (revokeToken user token justification now store).2) ∧
    (∀ now justification old,
      (applyRevokeUpdate now justification old).status =
        TOKEN_STATUS_REVOKED) := by
  refine ⟨?_, ?_, fun now justification old => rfl⟩
  · intro user justification bytes now store
    cases hv1 : _validateNoEmptyString "createToken" "user" user with
    | error e =>
      left
      unfold createToken
      rw [hv1]
    | ok u =>
      cases hv2 : _validateNoEmptyString "createToken"
          "justification" justification with
      | error e =>
        left
        unfold createToken
        rw [hv1, hv2]
      | ok u2 =>
        right
        refine ⟨_buildToken (generateTokenPromise bytes) user
          justification now, ?_, rfl⟩
        unfold createToken
        rw [hv1, hv2]
  · intro user token justification now store
    have hrefl : List.Forall₂ (fun old new => new = old ∨
        new = applyRevokeUpdate now justification old) store store :=
      List.forall₂_same.mpr (fun a _ => Or.inl rfl)
    cases hv1 : _validateNoEmptyString "revokeToken" "user" user with
    | error e =>
      unfold revokeToken
      rw [hv1]
      exact hrefl
    | ok u1 =>
    cases hv2 : _validateNoEmptyString "revokeToken" "token"
        token with
    | error e =>
      unfold revokeToken
      rw [hv1, hv2]
      exact hrefl
    | ok u2 =>
    cases hv3 : _validateNoEmptyString "revokeToken" "justification"
        justification with
    | error e =>
      unfold revokeToken
      rw [hv1, hv2, hv3]
      exact hrefl
    | ok u3 =>
    rcases hl : store.filter (fun d => d.token == token) with
      _ | ⟨d, _ | ⟨d2, t⟩⟩
    · unfold revokeToken
      rw [hv1, hv2, hv3, hl]
      exact hrefl
    · by_cases how : user = d.user
      · unfold revokeToken
        rw [hv1, hv2, hv3, hl]
        simp only [how, if_true, if_pos rfl]
        exact findOneAndUpdate_forall2 _ _ store
      · unfold revokeToken
        rw [hv1, hv2, hv3, hl]
        simp only [how, if_false, if_neg how]
        exact hrefl
    · unfold revokeToken
      rw [hv1, hv2, hv3, hl]
      exact hrefl

/-- Claim C10: a non-empty but all-whitespace string is rejected as an
invalid argument, before any store access and with the store left
unchanged, by create (as user or justification), revoke (as user,
token or justification) and validate (as token); list however accepts
such a user string and proceeds to query the store with it. -/
theorem C10_blank_strings (s : String) (hs1 : s ≠ "")
    (hs2 : jsTrim s = "") :
    (∀ justification bytes now store,
      createToken s justification bytes now store =
        (Except.error (ModelError.assertionError
          "createToken: user cannot be empty string"), store)) ∧
    (∀ user bytes now store, user ≠ "" → jsTrim user ≠ "" →
      createToken user s bytes now store =
        (Except.error (ModelError.assertionError
          "createToken: justification cannot be empty string"),
         store)) ∧
    (∀ token justification now store,
      revokeToken s token justification now store =
        (Except.error (ModelError.assertionError
          "revokeToken: user cannot be empty string"), store)) ∧
    (∀ user justification now store, user ≠ "" → jsTrim user ≠ "" →
      revokeToken user s justification now store =
        (Except.error (ModelError.assertionError
          "revokeToken: token cannot be empty string"), store)) ∧
    (∀ user token now store, user ≠ "" → jsTrim user ≠ "" →
      token ≠ "" → jsTrim token ≠ "" →
      revokeToken user token s now store =
        (Except.error (ModelError.assertionError
          "revokeToken: justification cannot be empty string"),
         store)) ∧
    (∀ groups now store users,
      validateToken groups s now store users =
        Except.error (ModelError.assertionError
          "validateToken: token cannot be empty string")) ∧
    (∀ store : List TokenDoc, ∃ l, listTokens s store = Except.ok l ∧
      List.Perm l (store.filter (fun d => d.user == s))) := by
  refine ⟨?_, ?_, ?_, ?_, ?_, ?_, ?_⟩
  · intro justification bytes now store
    unfold createToken
    rw [validateNES_blank _ _ _ hs1 hs2]
    rfl
  · intro user bytes now store hu1 hu2
    unfold createToken
    rw [validateNES_ok _ _ _ hu1 hu2,
      validateNES_blank _ _ _ hs1 hs2]
    rfl
  · intro token justification now store
    unfold revokeToken
    rw [validateNES_blank _ _ _ hs1 hs2]
    rfl
  · intro user justification now store hu1 hu2
    unfold revokeToken
    rw [validateNES_ok _ _ _ hu1 hu2,
      validateNES_blank _ _ _ hs1 hs2]
    rfl
  · intro user token now store hu1 hu2 ht1 ht2
    unfold revokeToken
    rw [validateNES_ok _ _ _ hu1 hu2, validateNES_ok _ _ _ ht1 ht2,
      validateNES_blank _ _ _ hs1 hs2]
    rfl
  · intro groups now store users
    unfold validateToken
    rw [validateNES_blank _ _ _ hs1 hs2]
    rfl
  · intro store
    refine ⟨List.insertionSort statusDescRel
      (store.filter (fun d => d.user == s)), ?_,
      List.perm_insertionSort statusDescRel _⟩
    unfold listTokens
    rw [if_neg hs1]

/-- Witness for claim C10 at the concrete blank string of one space:
create rejects it as user while list accepts it. -/
theorem C10_witness :
    createToken " " "j" [] 0 [] =
      (Except.error (ModelError.assertionError
        "createToken: user cannot be empty string"), []) ∧
    (∃ l, listTokens " " [] = Except.ok l ∧
      List.Perm l (List.filter (fun d => d.user == " ") [])) :=
  ⟨(C10_blank_strings " " (by decide) (by decide)).1 "j" [] 0 [],
   (C10_blank_strings " " (by decide) (by decide)).2.2.2.2.2.2 []⟩
